import Mathlib

/-!
Verification of the stats reporting module (`open_bus_stride_etl/stats/api.py`)
against its natural-language specification.

Embedding choices:
* Instants are `Int` values: seconds on a fixed-offset timeline.  The source
  localizes day boundaries with `pytz.timezone('israel')`; since no claim
  crosses a DST transition and all comparisons in the aggregator are between
  store timestamps and day boundaries on that same local timeline, we model the
  localized timeline as a fixed-offset one, so midnight of day-index `d` is
  `86400 * d`.  The freshness check compares parsed identifier instants with
  `datetime.now(pytz.UTC)`; both are modelled as absolute `Int` instants.
* Calendar dates are day indices (`Int`, days since 1970-01-01); conversion to
  and from year/month/day uses the standard civil-calendar algorithms, matching
  Python's proleptic Gregorian `datetime` arithmetic.
* SQLAlchemy queries become list traversals.  Filters keep SQL three-valued
  logic: a `WHERE` clause keeps a row only when the predicate evaluates to
  TRUE, so both `col == True` and `col != True` reject a NULL column.
* `LIKE` patterns are interpreted by an executable matcher (`%` matches any
  sequence, `_` any single character), exactly as SQL does.
* Generators become lists; fallible steps return `Except`.
-/

/-! ## Calendar arithmetic (proleptic Gregorian, as in Python `datetime`) -/

/-- Convert a day index (days since 1970-01-01) to `(year, month, day)`,
proleptic Gregorian calendar. -/
def civilFromDays (z : Int) : Int × Nat × Nat :=
  let z' := z + 719468
  let era := (if 0 ≤ z' then z' else z' - 146096) / 146097
  let doe := (z' - era * 146097).toNat
  let yoe := (doe - doe / 1460 + doe / 36524 - doe / 146096) / 365
  let y := (yoe : Int) + era * 400
  let doy := doe - (365 * yoe + yoe / 4 - yoe / 100)
  let mp := (5 * doy + 2) / 153
  let dd := doy - (153 * mp + 2) / 5 + 1
  let m := if mp < 10 then mp + 3 else mp - 9
  (y + (if m ≤ 2 then 1 else 0), m, dd)

/-- Convert a `(year, month, day)` civil date to its day index
(days since 1970-01-01). -/
def days_from_civil (y : Int) (m d : Nat) : Int :=
  let y' := y - (if m ≤ 2 then 1 else 0)
  let era := (if 0 ≤ y' then y' else y' - 399) / 400
  let yoe := (y' - era * 400).toNat
  let mp := if 2 < m then m - 3 else m + 9
  let doy := (153 * mp + 2) / 5 + d - 1
  let doe := yoe * 365 + yoe / 4 - yoe / 100 + doy
  era * 146097 + (doe : Int) - 719468

/-! ## Day windows

`last_day_stats_iterator` computes, for each day, `datetime_from` = localized
midnight of the day and `datetime_to = datetime_from + timedelta(days=1)`, then
filters timestamp columns with `col <= datetime_to, col >= datetime_from`. -/

/-- Localized midnight of day-index `d` (`datetime_from` in the source). -/
def window_start (d : Int) : Int := 86400 * d

/-- `datetime_to = datetime_from + timedelta(days=1)` in the source. -/
def window_end (d : Int) : Int := window_start d + 86400

/-- The timestamp filter used by every windowed count in
`last_day_stats_iterator`: `col <= datetime_to, col >= datetime_from`
(both comparisons inclusive, exactly as in the source). -/
def timeInWindow (d t : Int) : Bool :=
  decide (t ≤ window_end d) && decide (t ≥ window_start d)

/-! ## Decimal formatting (`strftime('%Y/%m/%d/')`) -/

/-- Decimal digits of `n`, most significant first, with explicit fuel so that
the definition is structurally recursive (any `fuel > n` is enough, since
`n / 10 < n` for `n ≥ 10`). -/
def natToCharsAux : Nat → Nat → List Char
  | 0, _ => []
  | fuel + 1, n =>
    if n < 10 then [Nat.digitChar n]
    else natToCharsAux fuel (n / 10) ++ [Nat.digitChar (n % 10)]

/-- Decimal digits of `n`, most significant first. -/
def natToChars (n : Nat) : List Char := natToCharsAux (n + 1) n

/-- Zero-pad the decimal digits of `n` to width `w`
(as `strftime` pads `%Y`, `%m`, `%d`). -/
def padNat (w n : Nat) : List Char :=
  List.replicate (w - (natToChars n).length) '0' ++ natToChars n

/-- The characters of `datetime_from.strftime('%Y/%m/%d/')` for day-index `d`:
the day's date formatted as `YYYY/MM/DD/`. -/
def day_segment_chars (d : Int) : List Char :=
  let ymd := civilFromDays d
  padNat 4 ymd.1.toNat ++ '/' :: (padNat 2 ymd.2.1 ++ '/' :: (padNat 2 ymd.2.2 ++ ['/']))

/-! ## SQL `LIKE` -/

/-- SQL `LIKE` matching: `%` matches any sequence of characters, `_` matches
any single character, anything else matches itself. -/
def likeMatch : List Char → List Char → Bool
  | [] => fun cs => cs.isEmpty
  | p :: ps => fun cs =>
    if p = '%' then (List.range (cs.length + 1)).any fun k => likeMatch ps (cs.drop k)
    else if p = '_' then
      match cs with
      | [] => false
      | _ :: cs' => likeMatch ps cs'
    else
      match cs with
      | [] => false
      | c :: cs' => p == c && likeMatch ps cs'

/-! ## SQL boolean filters on a nullable column

SQL three-valued logic: comparing NULL with anything yields UNKNOWN, and a
`WHERE` clause keeps only rows where the condition is TRUE.  So the filter
`col == True` keeps exactly the rows whose column is TRUE, and `col != True`
keeps exactly the rows whose column is FALSE — a NULL column passes neither. -/

/-- SQL semantics of the filter `col == True` on a nullable boolean column. -/
def sql_eq_true : Option Bool → Bool
  | some b => b
  | none => false

/-- SQL semantics of the filter `col != True` on a nullable boolean column:
`NULL != TRUE` is UNKNOWN, so a NULL row is rejected. -/
def sql_ne_true : Option Bool → Bool
  | some b => !b
  | none => false

/-! ## Data model (`open_bus_stride_db` rows, restricted to the columns the
stats module reads) -/

/-- `SiriSnapshotEtlStatusEnum`.  Modelled from the spec: the enumeration lives
in the external `open_bus_stride_db` collaborator; the spec (§3) gives an
indicative member set and only requires that reporting exposes the raw value. -/
inductive SiriSnapshotEtlStatusEnum
  | pending
  | processing
  | success
  | failed
deriving DecidableEq

/-- The `.value` of an enum member: its serializable primitive form. -/
def SiriSnapshotEtlStatusEnum.value : SiriSnapshotEtlStatusEnum → String
  | .pending => "pending"
  | .processing => "processing"
  | .success => "success"
  | .failed => "failed"

structure SiriSnapshot where
  id : Nat
  snapshot_id : String
  etl_status : SiriSnapshotEtlStatusEnum
  etl_start_time : Int
  etl_end_time : Option Int
  error : Option String
  num_successful_parse_vehicle_locations : Nat
  num_failed_parse_vehicle_locations : Nat
deriving DecidableEq

structure VehicleLocation where
  siri_snapshot_id : Nat
deriving DecidableEq

structure Ride where
  route_id : Nat
  scheduled_start_time : Int
  is_from_gtfs : Option Bool
deriving DecidableEq

structure Route where
  id : Nat
  is_from_gtfs : Option Bool
deriving DecidableEq

structure RouteStop where
  route_id : Nat
  stop_id : Nat
deriving DecidableEq

structure Stop where
  id : Nat
deriving DecidableEq

/-- The relational store the session queries against. -/
structure Store where
  siri_snapshots : List SiriSnapshot
  vehicle_locations : List VehicleLocation
  rides : List Ride
  routes : List Route
  route_stops : List RouteStop
  stops : List Stop
deriving DecidableEq

def emptyStore : Store := ⟨[], [], [], [], [], []⟩

/-- Adding one snapshot row to the store. -/
def addSnapshot (st : Store) (s : SiriSnapshot) : Store :=
  { st with siri_snapshots := st.siri_snapshots ++ [s] }

/-- Adding snapshot rows and ride rows to the store (the record kinds that
carry a windowed timestamp). -/
def addRecords (st : Store) (snaps : List SiriSnapshot) (rides : List Ride) : Store :=
  { st with
    siri_snapshots := st.siri_snapshots ++ snaps
    rides := st.rides ++ rides }

/-! ## The per-day counts of `last_day_stats_iterator` -/

/-- `session.query(SiriSnapshot).filter(SiriSnapshot.etl_start_time <=
datetime_to, SiriSnapshot.etl_start_time >= datetime_from).count()`. -/
def siri_by_etl_started (st : Store) (d : Int) : Nat :=
  st.siri_snapshots.countP fun s => timeInWindow d s.etl_start_time

/-- `session.query(SiriSnapshot).filter(SiriSnapshot.snapshot_id.like(
datetime_from.strftime('%Y/%m/%d/') + '%')).count()`. -/
def siri_by_snapshot_id (st : Store) (d : Int) : Nat :=
  st.siri_snapshots.countP fun s =>
    likeMatch (day_segment_chars d ++ ['%']) s.snapshot_id.toList

/-- `session.query(VehicleLocation).filter(VehicleLocation.siri_snapshot.has(
SiriSnapshot.snapshot_id.like(...))).count()`: an EXISTS over the owning
snapshot. -/
def vehicle_location_by_snapshot_id (st : Store) (d : Int) : Nat :=
  st.vehicle_locations.countP fun vl =>
    st.siri_snapshots.any fun s =>
      s.id == vl.siri_snapshot_id &&
        likeMatch (day_segment_chars d ++ ['%']) s.snapshot_id.toList

/-- `session.query(Ride).filter(Ride.scheduled_start_time <= datetime_to,
Ride.scheduled_start_time >= datetime_from, Ride.is_from_gtfs == True).count()`
and the `!= True` variant, selected by `f`. -/
def ride_counts (st : Store) (d : Int) (f : Option Bool → Bool) : Nat :=
  st.rides.countP fun r =>
    timeInWindow d r.scheduled_start_time && f r.is_from_gtfs

/-- `session.query(Route).filter(Route.rides.any(and_(time window)),
Route.is_from_gtfs == True).count()` and the `!= True` variant: an EXISTS over
the route's rides, then a filter on the route's own flag. -/
def route_counts (st : Store) (d : Int) (f : Option Bool → Bool) : Nat :=
  st.routes.countP fun r =>
    (st.rides.any fun ride =>
      ride.route_id == r.id && timeInWindow d ride.scheduled_start_time) &&
    f r.is_from_gtfs

/-- The join `query(RouteStop).join(Route)`: one row per `(RouteStop, Route)`
pair with `route_stop.route_id = route.id`. -/
def route_stop_route_join (st : Store) : List (RouteStop × Route) :=
  st.route_stops.flatMap fun rs =>
    st.routes.flatMap fun r =>
      if rs.route_id = r.id then [(rs, r)] else []

/-- `session.query(RouteStop).join(Route).join(Ride).filter(time window,
Route.is_from_gtfs == True).count()` and the `!= True` variant: a row per
`(RouteStop, Route, Ride)` join chain, filtered by the WHERE clause. -/
def route_stop_counts (st : Store) (d : Int) (f : Option Bool → Bool) : Nat :=
  ((route_stop_route_join st).flatMap fun pre =>
    st.rides.flatMap fun ride =>
      if ride.route_id = pre.2.id then [(pre, ride)] else []).countP
    fun x => timeInWindow d x.2.scheduled_start_time && f x.1.2.is_from_gtfs

/-- The join `query(Stop).join(RouteStop).join(Route)`: one row per
`(Stop, RouteStop, Route)` chain. -/
def stop_route_join (st : Store) : List ((Stop × RouteStop) × Route) :=
  (st.stops.flatMap fun s =>
    st.route_stops.flatMap fun rs =>
      if rs.stop_id = s.id then [(s, rs)] else []).flatMap fun pre =>
    st.routes.flatMap fun r =>
      if pre.2.route_id = r.id then [(pre, r)] else []

/-- `session.query(Stop).join(RouteStop).join(Route).join(Ride).filter(time
window, Route.is_from_gtfs == True).count()` and the `!= True` variant. -/
def stop_counts (st : Store) (d : Int) (f : Option Bool → Bool) : Nat :=
  ((stop_route_join st).flatMap fun pre =>
    st.rides.flatMap fun ride =>
      if ride.route_id = pre.2.id then [(pre, ride)] else []).countP
    fun x => timeInWindow d x.2.scheduled_start_time && f x.1.2.is_from_gtfs

/-- The per-day record yielded by `last_day_stats_iterator`. -/
structure DayStats where
  date : Int
  siri_snapshot_by_etl_started : Nat
  siri_snapshot_by_snapshot_id : Nat
  vehicle_location_by_snapshot_id : Nat
  ride_is_from_gtfs : Nat
  ride_not_from_gtfs : Nat
  route_by_rides_is_from_gtfs : Nat
  route_by_rides_not_from_gtfs : Nat
  route_stop_by_route_is_from_gtfs : Nat
  route_stop_by_route_not_from_gtfs : Nat
  stop_by_route_stop_is_from_gtfs : Nat
  stop_by_route_stop_not_from_gtfs : Nat
deriving DecidableEq

/-- The stats record for one day.  (The source also evaluates
`session.query(RouteStop).join(Route)` on its own line; that builds a query
object without executing it, so it contributes nothing here.) -/
def dayStats (st : Store) (date : Int) : DayStats :=
  { date := date
    siri_snapshot_by_etl_started := siri_by_etl_started st date
    siri_snapshot_by_snapshot_id := siri_by_snapshot_id st date
    vehicle_location_by_snapshot_id := vehicle_location_by_snapshot_id st date
    ride_is_from_gtfs := ride_counts st date sql_eq_true
    ride_not_from_gtfs := ride_counts st date sql_ne_true
    route_by_rides_is_from_gtfs := route_counts st date sql_eq_true
    route_by_rides_not_from_gtfs := route_counts st date sql_ne_true
    route_stop_by_route_is_from_gtfs := route_stop_counts st date sql_eq_true
    route_stop_by_route_not_from_gtfs := route_stop_counts st date sql_ne_true
    stop_by_route_stop_is_from_gtfs := stop_counts st date sql_eq_true
    stop_by_route_stop_not_from_gtfs := stop_counts st date sql_ne_true }

/-- `last_day_stats_iterator(limit, from_)` with a caller-supplied `from_`
(when `from_` is absent the source substitutes today's localized midnight via
the time collaborator): `for i in range(limit): date = from_ -
timedelta(days=i); yield {...}`. -/
def last_day_stats_iterator (st : Store) (limit : Nat) (from_ : Int) : List DayStats :=
  (List.range limit).map fun (i : Nat) => dayStats st (from_ - (i : Int))

/-! ## Snapshot inventory (`siri_snapshots_iterator`) -/

/-- The summary dict yielded per snapshot by `siri_snapshots_iterator`. -/
structure SnapshotSummary where
  snapshot_id : String
  etl_status : String
  etl_start_time : Int
  etl_end_time : Option Int
  error : Option String
  num_successful_parse_vehicle_locations : Nat
  num_failed_parse_vehicle_locations : Nat
  vehicle_locations : Nat
deriving DecidableEq

/-- The dict built for one snapshot row: raw columns, the enum's `.value`, and
`len(siri_snapshot.vehicle_locations)` — the cardinality of the one-to-many
relationship. -/
def snapshotSummary (st : Store) (s : SiriSnapshot) : SnapshotSummary :=
  { snapshot_id := s.snapshot_id
    etl_status := s.etl_status.value
    etl_start_time := s.etl_start_time
    etl_end_time := s.etl_end_time
    error := s.error
    num_successful_parse_vehicle_locations := s.num_successful_parse_vehicle_locations
    num_failed_parse_vehicle_locations := s.num_failed_parse_vehicle_locations
    vehicle_locations := st.vehicle_locations.countP fun vl => vl.siri_snapshot_id == s.id }

/-- Insert a snapshot into a list sorted by `etl_start_time` descending
(stable: ties keep earlier rows first, determinizing the unspecified tie order
of `ORDER BY ... DESC`). -/
def insertDescByEtl (s : SiriSnapshot) : List SiriSnapshot → List SiriSnapshot
  | [] => [s]
  | t :: ts =>
    if t.etl_start_time < s.etl_start_time then s :: t :: ts
    else t :: insertDescByEtl s ts

/-- `session.query(SiriSnapshot).order_by(desc(SiriSnapshot.etl_start_time))`
realized as a deterministic insertion sort. -/
def sortDescByEtl : List SiriSnapshot → List SiriSnapshot
  | [] => []
  | s :: rest => insertDescByEtl s (sortDescByEtl rest)

/-- `siri_snapshots_iterator(limit)`: the snapshots ordered by
`etl_start_time` descending, truncated by the slice `[:limit]`, one summary
dict per row. -/
def siri_snapshots_iterator (st : Store) (limit : Nat) : List SnapshotSummary :=
  ((sortDescByEtl st.siri_snapshots).take limit).map (snapshotSummary st)

/-! ## Identifier codec and freshness -/

/-- Split a character list on `'/'` separators. -/
def splitSlash : List Char → List (List Char)
  | [] => [[]]
  | c :: rest =>
    match splitSlash rest with
    | [] => []
    | seg :: segs => if c = '/' then [] :: seg :: segs else (c :: seg) :: segs

/-- The numeric value of a decimal digit character, `none` otherwise. -/
def charDigit? (c : Char) : Option Nat :=
  if '0' ≤ c ∧ c ≤ '9' then some (c.toNat - 48) else none

/-- Read a run of decimal digits as a number. -/
def charsToNatAux : List Char → Nat → Option Nat
  | [], acc => some acc
  | c :: rest, acc =>
    match charDigit? c with
    | none => none
    | some k => charsToNatAux rest (acc * 10 + k)

/-- A non-empty all-digit segment as a number, `none` on anything else. -/
def charsToNat? (cs : List Char) : Option Nat :=
  if cs.isEmpty then none else charsToNatAux cs 0

/-- Modelled from the spec: `parse_siri_snapshot_id` is imported from this
repository's `common` module, which is not among the provided sources.  Per
spec §4.1 the identifier is a slash-delimited path-like string whose leading
segments encode year/month/day and whose further segments encode time of day;
parsing returns a timezone-aware timestamp and fails with MalformedIdentifier
on any string not matching the segment structure.  We realize the segments as
`year/month/day/hour/minute`, the result as an absolute instant in seconds
(the universal comparison frame of §4.3), and failure as `none`. -/
def parse_siri_snapshot_id (s : String) : Option Int :=
  match (splitSlash s.toList).map charsToNat? with
  | [some y, some mo, some dd, some hh, some mi] =>
    some (days_from_civil (y : Int) mo dd * 86400 + (hh : Int) * 3600 + (mi : Int) * 60)
  | _ => none

/-- The scan in `collect`'s print loop: starting from
`latest_snapshot_datetime = None`, parse each summary's `snapshot_id` and keep
it when `not latest_snapshot_datetime or latest_snapshot_datetime <
snapshot_datetime`.  A malformed identifier aborts the scan. -/
def latestSnapshotDatetime : List SnapshotSummary → Option Int → Except Unit (Option Int)
  | [], acc => .ok acc
  | s :: rest, acc =>
    match parse_siri_snapshot_id s.snapshot_id with
    | none => .error ()
    | some t =>
      latestSnapshotDatetime rest
        (match acc with
         | none => some t
         | some t0 => if t0 < t then some t else some t0)

/-- The three printed validation diagnostics. -/
inductive Diagnostic
  | no_snapshot
  | older_than_hour (t : Int)
  | success (t : Int)
deriving DecidableEq

/-- The freshness verdict computed at the end of `collect`'s print mode:
`is_valid = False` with the "no latest snapshot" diagnostic when nothing was
scanned, `False` with the staleness diagnostic when
`latest_snapshot_datetime < datetime.datetime.now(pytz.UTC) -
datetime.timedelta(hours=1)`, `True` otherwise. -/
def validate_freshness (l : List SnapshotSummary) (now : Int) :
    Except Unit (Bool × Diagnostic) :=
  match latestSnapshotDatetime l none with
  | .error e => .error e
  | .ok none => .ok (false, Diagnostic.no_snapshot)
  | .ok (some t) =>
    if t < now - 3600 then .ok (false, Diagnostic.older_than_hour t)
    else .ok (true, Diagnostic.success t)

/-! ## The top-level `collect` -/

/-- Queries executed against the store, in execution order.  Creating a
generator does not execute anything: the per-day counts run only as
`last_day_stats_iterator` is consumed, and the inventory SELECT only as
`siri_snapshots_iterator` is consumed. -/
inductive StoreQuery
  | count_siri_snapshots
  | day_stats (date : Int)
  | latest_siri_snapshots (limit : Nat)
deriving DecidableEq

/-- The possible outcomes of `collect`. -/
inductive CollectResult
  /-- `print_results=False, validate=False`: the raw result bundle.  The
  bundle's two iterator entries are unconsumed generators, so only the total
  count has been computed. -/
  | results (num_siri_snapshots : Nat)
  /-- `print_results=True, validate=False`: everything rendered, returns
  `True`. -/
  | rendered
  /-- `print_results=True, validate=True`: the boolean verdict, with the
  diagnostic that was printed. -/
  | verdict (is_valid : Bool) (diag : Diagnostic)
  /-- The `assert not validate` failure (PreconditionViolation). -/
  | assertionError
  /-- A `MalformedIdentifier` escape from `parse_siri_snapshot_id` during the
  print loop. -/
  | malformedIdentifier
deriving DecidableEq

/-- `collect(latest_siri_snapshots_limit, last_days_limit, last_days_from,
print_results, validate)`: returns the outcome together with the queries
executed against the store, in order.  The `res` dict is built first — its
`num_siri_snapshots` entry runs `session.query(SiriSnapshot).count()`
immediately, while the two iterator entries are generators and run nothing.
In print mode the day stats are rendered (consuming the day generator), then
the snapshot summaries are rendered while `latest_snapshot_datetime` is
tracked, then the verdict is computed if requested.  Outside print mode the
`assert not validate` guard fires before anything is consumed. -/
def collect (st : Store) (now : Int)
    (latest_siri_snapshots_limit last_days_limit : Nat) (last_days_from : Int)
    (print_results validate : Bool) : CollectResult × List StoreQuery :=
  let num_siri_snapshots := st.siri_snapshots.length
  let qs := [StoreQuery.count_siri_snapshots]
  if print_results then
    let qs := qs ++ (List.range last_days_limit).map
      fun (i : Nat) => StoreQuery.day_stats (last_days_from - (i : Int))
    let summaries := siri_snapshots_iterator st latest_siri_snapshots_limit
    let qs := qs ++ [StoreQuery.latest_siri_snapshots latest_siri_snapshots_limit]
    match latestSnapshotDatetime summaries none with
    | .error _ => (CollectResult.malformedIdentifier, qs)
    | .ok latest =>
      if validate then
        match latest with
        | none => (CollectResult.verdict false Diagnostic.no_snapshot, qs)
        | some t =>
          if t < now - 3600 then
            (CollectResult.verdict false (Diagnostic.older_than_hour t), qs)
          else
            (CollectResult.verdict true (Diagnostic.success t), qs)
      else (CollectResult.rendered, qs)
  else
    if validate then (CollectResult.assertionError, qs)
    else (CollectResult.results num_siri_snapshots, qs)

/-! ## Spec-side quantities -/

/-- The spec's "total number of ScheduledEvents whose `scheduled_start_time`
falls in the window" (the reference total against which the official /
non-official split is compared). -/
def rides_in_window (st : Store) (d : Int) : Nat :=
  st.rides.countP fun r => timeInWindow d r.scheduled_start_time

/-! ## Sample rows and stores for concrete instantiations -/

def mkSnapshot (i : Nat) (sid : String) (t : Int) : SiriSnapshot :=
  { id := i
    snapshot_id := sid
    etl_status := SiriSnapshotEtlStatusEnum.success
    etl_start_time := t
    etl_end_time := some (t + 60)
    error := none
    num_successful_parse_vehicle_locations := 0
    num_failed_parse_vehicle_locations := 0 }

/-- A snapshot whose `etl_start_time` is exactly `window_end 0`
(midnight starting day 1). -/
def boundarySnapshot : SiriSnapshot := mkSnapshot 1 "1970/01/01/23/59" 86400

/-- A ride scheduled exactly at `window_end 0`. -/
def boundaryRide : Ride := ⟨1, 86400, some true⟩

def boundaryStore : Store := ⟨[boundarySnapshot], [], [boundaryRide], [], [], []⟩

/-- A ride inside day 0's window whose `is_from_gtfs` flag is NULL. -/
def nullFlagRide : Ride := ⟨1, 100, none⟩

def nullFlagStore : Store := ⟨[], [], [nullFlagRide], [], [], []⟩

/-- A snapshot whose `etl_start_time` lies only in day 0's window but whose
`snapshot_id` encodes day 1's date (`1970/01/02`). -/
def crossDaySnapshot : SiriSnapshot := mkSnapshot 2 "1970/01/02/00/00" 0

/-- Rows whose timestamps lie in day 1's window. -/
def d2Snapshot : SiriSnapshot := mkSnapshot 3 "1970/01/02/06/00" 108000

def d2Ride : Ride := ⟨7, 108000, some true⟩

def d2Store : Store := ⟨[d2Snapshot], [], [d2Ride], [⟨7, some true⟩], [⟨7, 4⟩], [⟨4⟩]⟩

/-- Rows whose timestamps lie only in day 0's window. -/
def d1Snapshot : SiriSnapshot := mkSnapshot 4 "1970/01/01/12/00" 43200

def d1Ride : Ride := ⟨7, 43200, some true⟩

/-- A summary whose identifier parses to 2024-01-15 10:00, i.e. instant
`19737 * 86400 + 36000 = 1705312800`. -/
def staleSummary : SnapshotSummary :=
  { snapshot_id := "2024/01/15/10/00"
    etl_status := "success"
    etl_start_time := 1705312800
    etl_end_time := some 1705312860
    error := none
    num_successful_parse_vehicle_locations := 0
    num_failed_parse_vehicle_locations := 0
    vehicle_locations := 0 }

/-- A snapshot captured on day 19737 (2024-01-15) with a matching identifier. -/
def janSnapshot : SiriSnapshot := mkSnapshot 5 "2024/01/15/08/00" 1705305600

/-- A snapshot whose `etl_start_time` lies in day 19737's window but whose
identifier encodes the following date. -/
def offDaySnapshot : SiriSnapshot := mkSnapshot 6 "2024/01/16/00/00" 1705300000

def janStore : Store := ⟨[janSnapshot], [], [], [], [], []⟩

/-- The snapshot with the greatest `etl_start_time`, with a stale identifier. -/
def staleTopSnapshot : SiriSnapshot := mkSnapshot 8 "2024/01/15/10/00" 1000

/-- A snapshot with a fresher identifier but a smaller `etl_start_time`. -/
def freshOldSnapshot : SiriSnapshot := mkSnapshot 9 "2024/01/15/11/30" 500

def topOnlyStore : Store := ⟨[staleTopSnapshot], [], [], [], [], []⟩

def withFreshStore : Store := ⟨[staleTopSnapshot, freshOldSnapshot], [], [], [], [], []⟩

/-! ## Helper lemmas -/

theorem natToCharsAux_digit (fuel n : Nat) (c : Char) (hc : c ∈ natToCharsAux fuel n) :
    ∃ k, k < 10 ∧ c = Nat.digitChar k := by
  induction fuel generalizing n with
  | zero => simp [natToCharsAux] at hc
  | succ fuel ih =>
    unfold natToCharsAux at hc
    by_cases h : n < 10
    · simp only [if_pos h, List.mem_singleton] at hc
      exact ⟨n, h, hc⟩
    · simp only [if_neg h, List.mem_append, List.mem_singleton] at hc
      rcases hc with hc | hc
      · exact ih _ hc
      · exact ⟨n % 10, Nat.mod_lt _ (by omega), hc⟩

theorem padNat_no_wildcard (w n : Nat) (c : Char) (hc : c ∈ padNat w n) :
    c ≠ '%' ∧ c ≠ '_' := by
  have digit_ok : ∀ k, k < 10 → Nat.digitChar k ≠ '%' ∧ Nat.digitChar k ≠ '_' := by decide
  unfold padNat at hc
  rcases List.mem_append.1 hc with h | h
  · rcases List.eq_of_mem_replicate h with rfl
    exact ⟨by decide, by decide⟩
  · obtain ⟨k, hk, rfl⟩ := natToCharsAux_digit _ _ _ h
    exact digit_ok k hk

theorem day_segment_chars_no_wildcard (d : Int) :
    ∀ c ∈ day_segment_chars d, c ≠ '%' ∧ c ≠ '_' := by
  intro c hc
  unfold day_segment_chars at hc
  simp only [List.mem_append, List.mem_cons, List.mem_singleton,
    List.not_mem_nil, or_false] at hc
  rcases hc with h | h | h | h | h | h
  · exact padNat_no_wildcard _ _ _ h
  · rcases h with rfl; exact ⟨by decide, by decide⟩
  · exact padNat_no_wildcard _ _ _ h
  · rcases h with rfl; exact ⟨by decide, by decide⟩
  · exact padNat_no_wildcard _ _ _ h
  · rcases h with rfl; exact ⟨by decide, by decide⟩

/-- A `LIKE` pattern that is a wildcard-free prefix followed by a single
trailing `%` matches exactly the strings having that prefix. -/
theorem likeMatch_trailing_any (p : List Char) (hp : ∀ c ∈ p, c ≠ '%' ∧ c ≠ '_') :
    ∀ s : List Char, likeMatch (p ++ ['%']) s = p.isPrefixOf s := by
  induction p with
  | nil =>
    intro s
    simp only [List.nil_append]
    have h1 : likeMatch ['%'] s = true := by
      unfold likeMatch
      simp only [if_pos rfl]
      refine List.any_eq_true.2 ⟨s.length, List.mem_range.2 (by omega), ?_⟩
      simp [likeMatch, List.drop_length]
    simp [h1, List.isPrefixOf]
  | cons a p ih =>
    intro s
    have ha := hp a (List.mem_cons_self a p)
    have hp' : ∀ c ∈ p, c ≠ '%' ∧ c ≠ '_' := fun c hc => hp c (List.mem_cons_of_mem _ hc)
    cases s with
    | nil =>
      simp only [List.cons_append]
      unfold likeMatch
      rw [if_neg ha.1, if_neg ha.2]
      simp [List.isPrefixOf]
    | cons b s =>
      simp only [List.cons_append]
      unfold likeMatch
      rw [if_neg ha.1, if_neg ha.2]
      show (a == b && likeMatch (p ++ ['%']) s) = (a :: p).isPrefixOf (b :: s)
      rw [ih hp' s, List.isPrefixOf_cons₂]

/-- Counting over a rides join where every joined row built from the extra
rides fails the predicate: the extra rides contribute nothing. -/
theorem countP_flatMap_unaffected {α β γ : Type} (pres : List α)
    (l extra : List γ) (g : α → γ → List β) (p : β → Bool)
    (h : ∀ a, ∀ r ∈ extra, ∀ x ∈ g a r, p x = false) :
    ((pres.flatMap fun a => (l ++ extra).flatMap (g a)).countP p) =
    ((pres.flatMap fun a => l.flatMap (g a)).countP p) := by
  induction pres with
  | nil => rfl
  | cons a rest ih =>
    simp only [List.flatMap_cons, List.countP_append, ih]
    have hz : (extra.flatMap (g a)).countP p = 0 := by
      rw [List.countP_eq_zero]
      intro x hx
      obtain ⟨r, hr, hxr⟩ := List.mem_flatMap.1 hx
      simp [h a r hr x hxr]
    rw [List.flatMap_append, List.countP_append, hz]
    omega

/-- The tracked `latest_snapshot_datetime` is an upper bound of (and attained
by) the parsed identifiers, relative to the incoming accumulator. -/
theorem latestSnapshotDatetime_max (l : List SnapshotSummary) :
    ∀ (acc r : Option Int), latestSnapshotDatetime l acc = Except.ok r →
    ∀ m, r = some m →
      ((acc = some m ∨ ∃ s ∈ l, parse_siri_snapshot_id s.snapshot_id = some m) ∧
       (∀ a, acc = some a → a ≤ m) ∧
       (∀ s ∈ l, ∀ t, parse_siri_snapshot_id s.snapshot_id = some t → t ≤ m)) := by
  induction l with
  | nil =>
    intro acc r h m hm
    simp only [latestSnapshotDatetime] at h
    cases h
    refine ⟨Or.inl hm, ?_, by simp⟩
    intro a ha
    rw [ha] at hm
    cases hm
    omega
  | cons s rest ih =>
    intro acc r h m hm
    simp only [latestSnapshotDatetime] at h
    cases hps : parse_siri_snapshot_id s.snapshot_id with
    | none => rw [hps] at h; cases h
    | some t =>
      rw [hps] at h
      set acc' := (match acc with
        | none => some t
        | some t0 => if t0 < t then some t else some t0) with hacc'
      obtain ⟨hmem, hub, hrest⟩ := ih acc' r h m hm
      have hacc'_le : ∀ a, acc' = some a → t ≤ a ∧ ∀ b, acc = some b → b ≤ a := by
        intro a ha
        cases acc with
        | none =>
          simp only [hacc'] at ha
          cases ha
          exact ⟨le_refl _, by simp⟩
        | some t0 =>
          simp only [hacc'] at ha
          by_cases h0 : t0 < t
          · rw [if_pos h0] at ha; cases ha
            exact ⟨le_refl _, by intro b hb; cases hb; omega⟩
          · rw [if_neg h0] at ha; cases ha
            exact ⟨by omega, by intro b hb; cases hb; omega⟩
      have hacc'_some : ∃ a, acc' = some a := by
        cases acc with
        | none => exact ⟨t, rfl⟩
        | some t0 =>
          simp only [hacc']
          by_cases h0 : t0 < t
          · exact ⟨t, by rw [if_pos h0]⟩
          · exact ⟨t0, by rw [if_neg h0]⟩
      obtain ⟨a, ha⟩ := hacc'_some
      have hta := hacc'_le a ha
      have ham := hub a ha
      constructor
      · rcases hmem with hm' | ⟨s', hs', hps'⟩
        · rw [ha] at hm'
          cases hm'
          cases acc with
          | none =>
            simp only [hacc'] at ha
            cases ha
            exact Or.inr ⟨s, List.mem_cons_self _ _, hps⟩
          | some t0 =>
            simp only [hacc'] at ha
            by_cases h0 : t0 < t
            · rw [if_pos h0] at ha; cases ha
              exact Or.inr ⟨s, List.mem_cons_self _ _, hps⟩
            · rw [if_neg h0] at ha; cases ha
              exact Or.inl rfl
        · exact Or.inr ⟨s', List.mem_cons_of_mem _ hs', hps'⟩
      constructor
      · intro b hb
        have := hta.2 b hb
        omega
      · intro s' hs' t' hps'
        rcases List.mem_cons.1 hs' with rfl | hs'
        · rw [hps] at hps'
          cases hps'
          omega
        · exact hrest s' hs' t' hps'

/-- If every summary parses to a stale instant and the accumulator is stale,
the scan succeeds and its result (when any) is stale. -/
theorem latestSnapshotDatetime_stale (l : List SnapshotSummary) (now : Int) :
    ∀ acc : Option Int,
    (∀ s ∈ l, ∃ t, parse_siri_snapshot_id s.snapshot_id = some t ∧ t < now - 3600) →
    (∀ a, acc = some a → a < now - 3600) →
    ∃ r, latestSnapshotDatetime l acc = Except.ok r ∧
      ∀ m, r = some m → m < now - 3600 := by
  induction l with
  | nil =>
    intro acc _ hacc
    exact ⟨acc, rfl, fun m hm => hacc m hm⟩
  | cons s rest ih =>
    intro acc hl hacc
    obtain ⟨t, hps, ht⟩ := hl s (List.mem_cons_self _ _)
    have hrest : ∀ s' ∈ rest, ∃ t', parse_siri_snapshot_id s'.snapshot_id = some t' ∧
        t' < now - 3600 := fun s' hs' => hl s' (List.mem_cons_of_mem _ hs')
    have hacc' : ∀ a, (match acc with
        | none => some t
        | some t0 => if t0 < t then some t else some t0) = some a → a < now - 3600 := by
      intro a ha
      cases acc with
      | none => cases ha; omega
      | some t0 =>
        simp only at ha
        by_cases h0 : t0 < t
        · rw [if_pos h0] at ha; cases ha; omega
        · rw [if_neg h0] at ha
          exact hacc a ha
    obtain ⟨r, hr, hstale⟩ := ih _ hrest hacc'
    refine ⟨r, ?_, hstale⟩
    simp only [latestSnapshotDatetime, hps]
    exact hr

/-- Splitting a ride count by `== True` / `!= True` covers exactly the rows
with a non-NULL flag. -/
theorem countP_ride_split (d : Int) (l : List Ride) :
    l.countP (fun r => timeInWindow d r.scheduled_start_time && sql_eq_true r.is_from_gtfs) +
      l.countP (fun r => timeInWindow d r.scheduled_start_time && sql_ne_true r.is_from_gtfs) =
      l.countP (fun r => timeInWindow d r.scheduled_start_time && !(r.is_from_gtfs == none)) := by
  induction l with
  | nil => rfl
  | cons r l ih =>
    simp only [List.countP_cons]
    have hsplit :
        (if timeInWindow d r.scheduled_start_time && sql_eq_true r.is_from_gtfs
          then 1 else 0) +
        (if timeInWindow d r.scheduled_start_time && sql_ne_true r.is_from_gtfs
          then 1 else 0) =
        (if timeInWindow d r.scheduled_start_time && !(r.is_from_gtfs == none)
          then (1 : Nat) else 0) := by
      cases hfg : r.is_from_gtfs with
      | none => simp [hfg, sql_eq_true, sql_ne_true]
      | some b =>
        cases b <;> cases htw : timeInWindow d r.scheduled_start_time <;>
          simp [hfg, htw, sql_eq_true, sql_ne_true]
    omega

/-- The result component of `collect` in print-and-validate mode is exactly
the freshness verdict over the latest-snapshots summaries. -/
theorem collect_verdict_eq (st : Store) (now : Int) (n days : Nat) (f : Int) :
    (collect st now n days f true true).1 =
      match validate_freshness (siri_snapshots_iterator st n) now with
      | .error _ => CollectResult.malformedIdentifier
      | .ok (b, dg) => CollectResult.verdict b dg := by
  unfold collect validate_freshness
  cases h : latestSnapshotDatetime (siri_snapshots_iterator st n) none with
  | error e => simp [h]
  | ok latest =>
    cases latest with
    | none => simp [h]
    | some t => by_cases ht : t < now - 3600 <;> simp [h, ht]

/-- `validate_freshness` when the scan yields no parsed instant. -/
theorem validate_freshness_none (l : List SnapshotSummary) (now : Int)
    (h : latestSnapshotDatetime l none = Except.ok none) :
    validate_freshness l now = Except.ok (false, Diagnostic.no_snapshot) := by
  unfold validate_freshness
  rw [h]

/-- `validate_freshness` when the scan yields a latest instant `t`. -/
theorem validate_freshness_some (l : List SnapshotSummary) (now t : Int)
    (h : latestSnapshotDatetime l none = Except.ok (some t)) :
    validate_freshness l now =
      if t < now - 3600 then Except.ok (false, Diagnostic.older_than_hour t)
      else Except.ok (true, Diagnostic.success t) := by
  unfold validate_freshness
  rw [h]

/-! ## Claims -/

/-- C1 counterexample: invoking `collect` with `print_results=False,
validate=True` does end in the assertion error, but a storage query — the
total snapshot count built into the `res` dict — has already executed by
then, refuting "no query against the store is issued". -/
theorem C1_counterexample :
    (collect emptyStore 0 10 5 0 false true).1 = CollectResult.assertionError ∧
    (collect emptyStore 0 10 5 0 false true).2 ≠ [] := by
  constructor
  · rfl
  · decide

/-- C1 (amended): for every store and arguments, `collect` with
`print_results=False, validate=True` fails with the assertion error
(PreconditionViolation) and produces no partial result, but only after the
store's total-snapshot-count query has executed: exactly that one query is
issued, and neither the per-day queries nor the inventory fetch run (the two
iterator entries of the result dict are unconsumed generators). -/
theorem C1_assert_after_count_query (st : Store) (now : Int)
    (latest_limit days_limit : Nat) (from_ : Int) :
    collect st now latest_limit days_limit from_ false true =
      (CollectResult.assertionError, [StoreQuery.count_siri_snapshots]) := rfl

/-- C2 counterexample: a snapshot whose `etl_start_time` equals `window_end 0`
(midnight of the following day) and a ride whose `scheduled_start_time`
equals that same boundary ARE counted in day 0's window, refuting the claimed
half-open exclusion of `window_end`. -/
theorem C2_counterexample :
    boundarySnapshot.etl_start_time = window_end 0 ∧
    boundaryRide.scheduled_start_time = window_end 0 ∧
    siri_by_etl_started boundaryStore 0 = 1 ∧
    ride_counts boundaryStore 0 sql_eq_true = 1 := by
  refine ⟨by decide, by decide, by decide, by decide⟩

/-- C2 (amended): the aggregator's window membership is CLOSED on both ends:
a timestamp belongs to day `d` iff `window_start d ≤ t ≤ window_end d`.  A
record whose relevant timestamp equals `window_start` IS counted (as the
claim says), but a record whose timestamp equals `window_end` (midnight of
the following day) IS also counted in day `d`'s window — and in day `d+1`'s,
so the boundary instant is double-counted rather than excluded. -/
theorem C2_window_closed :
    (∀ d t : Int, timeInWindow d t = true ↔ window_start d ≤ t ∧ t ≤ window_end d) ∧
    (∀ d : Int, timeInWindow d (window_end d) = true ∧
      timeInWindow (d + 1) (window_end d) = true ∧
      timeInWindow d (window_start d) = true) ∧
    (∀ (st : Store) (d : Int) (s : SiriSnapshot), s.etl_start_time = window_end d →
      siri_by_etl_started (addSnapshot st s) d = siri_by_etl_started st d + 1) := by
  refine ⟨?_, ?_, ?_⟩
  · intro d t
    simp only [timeInWindow, Bool.and_eq_true, decide_eq_true_eq, ge_iff_le]
    omega
  · intro d
    refine ⟨?_, ?_, ?_⟩ <;>
      · simp only [timeInWindow, Bool.and_eq_true, decide_eq_true_eq, ge_iff_le,
          window_start, window_end]
        omega
  · intro st d s hs
    unfold siri_by_etl_started addSnapshot
    simp only [List.countP_append]
    have hw : timeInWindow d s.etl_start_time = true := by
      simp only [timeInWindow, hs, Bool.and_eq_true, decide_eq_true_eq, ge_iff_le,
        window_start, window_end]
      omega
    simp [List.countP_cons, hw]

/-- C2 (amended) witness at a concrete boundary record. -/
theorem C2_window_closed_witness :
    siri_by_etl_started (addSnapshot emptyStore boundarySnapshot) 0 =
      siri_by_etl_started emptyStore 0 + 1 :=
  C2_window_closed.2.2 emptyStore 0 boundarySnapshot (by decide)

/-- C3 counterexample: a ride inside the window whose `is_from_gtfs` flag is
NULL is counted by neither the `== True` count nor the `!= True` count, so
official + non-official = 0 while the day's total ScheduledEvent count is 1,
refuting the claimed split completeness over null/unset flags. -/
theorem C3_counterexample :
    timeInWindow 0 nullFlagRide.scheduled_start_time = true ∧
    ride_counts nullFlagStore 0 sql_eq_true = 0 ∧
    ride_counts nullFlagStore 0 sql_ne_true = 0 ∧
    rides_in_window nullFlagStore 0 = 1 := by
  refine ⟨by decide, by decide, by decide, by decide⟩

/-- C3 (amended): for every store and day, the official count plus the
non-official count equals the number of ScheduledEvents in the window whose
`is_from_official_source` flag is non-NULL.  Rows with a NULL/unset flag fall
into neither count, because under SQL three-valued logic both filters
`== True` and `!= True` reject a NULL column. -/
theorem C3_split_non_null (st : Store) (d : Int) :
    ride_counts st d sql_eq_true + ride_counts st d sql_ne_true =
      st.rides.countP (fun r =>
        timeInWindow d r.scheduled_start_time && !(r.is_from_gtfs == none)) := by
  unfold ride_counts
  exact countP_ride_split d st.rides

/-- C6: freshness validation over an empty inventory returns false with the
distinct "no latest snapshot" diagnostic (not the staleness one) and no
exception; likewise `collect` in print-and-validate mode over a store with no
snapshots returns the `False` verdict with that diagnostic. -/
theorem C6_empty_inventory :
    (∀ now : Int, validate_freshness [] now = Except.ok (false, Diagnostic.no_snapshot)) ∧
    (∀ (st : Store) (now : Int) (n days : Nat) (from_ : Int),
      st.siri_snapshots = [] →
      (collect st now n days from_ true true).1 =
        CollectResult.verdict false Diagnostic.no_snapshot) := by
  constructor
  · intro now
    rfl
  · intro st now n days from_ h
    rw [collect_verdict_eq]
    unfold siri_snapshots_iterator
    rw [h]
    simp only [sortDescByEtl, List.take_nil, List.map_nil]
    rfl

/-- C6 witness at a concrete store with an empty inventory. -/
theorem C6_empty_inventory_witness :
    (collect emptyStore 0 10 5 0 true true).1 =
      CollectResult.verdict false Diagnostic.no_snapshot :=
  C6_empty_inventory.2 emptyStore 0 10 5 0 rfl

/-- C8: for every limit `n` and start date `d`, the day-window aggregator
yields exactly `n` per-day records, the `i`-th (0-indexed) carrying date
`d - i` — consecutive calendar days in strictly descending order from `d`. -/
theorem C8_descending_days (st : Store) (n : Nat) (d : Int) :
    (last_day_stats_iterator st n d).length = n ∧
    ∀ (i : Nat) (h : i < (last_day_stats_iterator st n d).length),
      ((last_day_stats_iterator st n d).get ⟨i, h⟩).date = d - i := by
  constructor
  · simp only [last_day_stats_iterator, List.length_map, List.length_range]
  · intro i h
    simp only [last_day_stats_iterator, List.get_eq_getElem, List.getElem_map,
      List.getElem_range, dayStats]

/-- C8 witness: two days from day 5 — the record at index 1 is for day 4. -/
theorem C8_descending_days_witness :
    (last_day_stats_iterator emptyStore 2 5).length = 2 ∧
    ((last_day_stats_iterator emptyStore 2 5).get ⟨1, by decide⟩).date = 5 - 1 :=
  ⟨(C8_descending_days emptyStore 2 5).1,
   (C8_descending_days emptyStore 2 5).2 1 (by decide)⟩

/-- C10: with `limit = 0` both iterators yield the empty sequence rather than
failing — the inventory slice `[:0]` is empty and `range(0)` yields nothing —
and no per-item (per-day) query is issued. -/
theorem C10_zero_limit (st : Store) (d : Int) :
    siri_snapshots_iterator st 0 = [] ∧
    last_day_stats_iterator st 0 d = [] ∧
    ((List.range 0).map fun (i : Nat) => StoreQuery.day_stats (d - (i : Int))) = [] := by
  refine ⟨?_, rfl, rfl⟩
  unfold siri_snapshots_iterator
  simp

/-- C4 counterexample: `crossDaySnapshot`'s timestamp lies only in day 0's
window, yet adding it changes day 1's `by_snapshot_id` count, because that
count is keyed on the identifier string (which here encodes day 1's date),
not on a windowed timestamp — refuting "never changes any count in d2's
record". -/
theorem C4_counterexample :
    (0 : Int) < 1 ∧
    timeInWindow 0 crossDaySnapshot.etl_start_time = true ∧
    timeInWindow 1 crossDaySnapshot.etl_start_time = false ∧
    siri_by_snapshot_id (addRecords emptyStore [crossDaySnapshot] []) 1 ≠
      siri_by_snapshot_id emptyStore 1 := by
  refine ⟨by decide, by decide, by decide, by decide⟩

/-- C4 (amended): adding records whose timestamps lie only in `d1`'s window
never changes any of `d2`'s timestamp-windowed counts — the snapshot
`by_etl_started` count and the ride, route, route-stop and stop counts.  The
identifier-keyed counts (`by_snapshot_id` and the vehicle-location count) are
not covered: they depend on the identifier string rather than on a windowed
timestamp, and an added snapshot whose identifier encodes `d2`'s date does
change them. -/
theorem C4_window_isolation (st : Store) (snaps : List SiriSnapshot)
    (rides : List Ride) (d1 d2 : Int) (_hlt : d1 < d2)
    (hs : ∀ s ∈ snaps, timeInWindow d1 s.etl_start_time = true ∧
      timeInWindow d2 s.etl_start_time = false)
    (hr : ∀ r ∈ rides, timeInWindow d1 r.scheduled_start_time = true ∧
      timeInWindow d2 r.scheduled_start_time = false) :
    siri_by_etl_started (addRecords st snaps rides) d2 = siri_by_etl_started st d2 ∧
    (∀ f, ride_counts (addRecords st snaps rides) d2 f = ride_counts st d2 f) ∧
    (∀ f, route_counts (addRecords st snaps rides) d2 f = route_counts st d2 f) ∧
    (∀ f, route_stop_counts (addRecords st snaps rides) d2 f =
      route_stop_counts st d2 f) ∧
    (∀ f, stop_counts (addRecords st snaps rides) d2 f = stop_counts st d2 f) := by
  refine ⟨?_, ?_, ?_, ?_, ?_⟩
  · unfold siri_by_etl_started addRecords
    simp only [List.countP_append]
    have hz : snaps.countP (fun s => timeInWindow d2 s.etl_start_time) = 0 := by
      rw [List.countP_eq_zero]
      intro s hsm
      simp [(hs s hsm).2]
    omega
  · intro f
    unfold ride_counts addRecords
    simp only [List.countP_append]
    have hz : rides.countP
        (fun r => timeInWindow d2 r.scheduled_start_time && f r.is_from_gtfs) = 0 := by
      rw [List.countP_eq_zero]
      intro r hm
      simp [(hr r hm).2]
    omega
  · intro f
    unfold route_counts addRecords
    apply List.countP_congr
    intro r _
    have hany : rides.any (fun ride =>
        ride.route_id == r.id && timeInWindow d2 ride.scheduled_start_time) = false := by
      rw [List.any_eq_false]
      intro ride hm
      simp [(hr ride hm).2]
    rw [List.any_append, hany]
    simp
  · intro f
    unfold route_stop_counts
    have hjoin : route_stop_route_join (addRecords st snaps rides) =
        route_stop_route_join st := rfl
    have hrides : (addRecords st snaps rides).rides = st.rides ++ rides := rfl
    rw [hjoin, hrides]
    refine countP_flatMap_unaffected (route_stop_route_join st) st.rides rides
      (fun pre ride => if ride.route_id = pre.2.id then [(pre, ride)] else []) _ ?_
    intro a r hm x hx
    simp only at hx
    by_cases hc : r.route_id = a.2.id
    · rw [if_pos hc] at hx
      rcases List.mem_singleton.1 hx with rfl
      show (timeInWindow d2 r.scheduled_start_time && f a.2.is_from_gtfs) = false
      simp [(hr r hm).2]
    · rw [if_neg hc] at hx
      cases hx
  · intro f
    unfold stop_counts
    have hjoin : stop_route_join (addRecords st snaps rides) = stop_route_join st := rfl
    have hrides : (addRecords st snaps rides).rides = st.rides ++ rides := rfl
    rw [hjoin, hrides]
    refine countP_flatMap_unaffected (stop_route_join st) st.rides rides
      (fun pre ride => if ride.route_id = pre.2.id then [(pre, ride)] else []) _ ?_
    intro a r hm x hx
    simp only at hx
    by_cases hc : r.route_id = a.2.id
    · rw [if_pos hc] at hx
      rcases List.mem_singleton.1 hx with rfl
      show (timeInWindow d2 r.scheduled_start_time && f a.2.is_from_gtfs) = false
      simp [(hr r hm).2]
    · rw [if_neg hc] at hx
      cases hx

/-- C4 (amended) witness: concrete day-0 records added to a store with day-1
data leave day 1's timestamp-windowed counts unchanged. -/
theorem C4_window_isolation_witness :
    siri_by_etl_started (addRecords d2Store [d1Snapshot] [d1Ride]) 1 =
      siri_by_etl_started d2Store 1 ∧
    route_stop_counts (addRecords d2Store [d1Snapshot] [d1Ride]) 1 sql_eq_true =
      route_stop_counts d2Store 1 sql_eq_true := by
  have h := C4_window_isolation d2Store [d1Snapshot] [d1Ride] 0 1 (by decide)
    (by decide) (by decide)
  exact ⟨h.1, h.2.2.2.1 sql_eq_true⟩

/-- C5: freshness validation tracks the maximum parsed identifier instant
over all yielded summaries (it is attained by some summary and bounds every
parsed instant) and, for a non-empty inventory, returns false exactly when
that maximum is older than now minus one hour, in an absolute (universal)
reference frame; in particular a single summary parsing to now minus two
hours yields false and one parsing to now minus ten minutes yields true. -/
theorem C5_freshness_max :
    (∀ (l : List SnapshotSummary) (now m : Int),
      latestSnapshotDatetime l none = Except.ok (some m) →
      ((∃ s ∈ l, parse_siri_snapshot_id s.snapshot_id = some m) ∧
       (∀ s ∈ l, ∀ t, parse_siri_snapshot_id s.snapshot_id = some t → t ≤ m) ∧
       (validate_freshness l now = Except.ok (false, Diagnostic.older_than_hour m) ↔
         m < now - 3600) ∧
       (validate_freshness l now = Except.ok (true, Diagnostic.success m) ↔
         now - 3600 ≤ m))) ∧
    (∀ (s : SnapshotSummary) (now t : Int),
      parse_siri_snapshot_id s.snapshot_id = some t → t = now - 7200 →
      validate_freshness [s] now = Except.ok (false, Diagnostic.older_than_hour t)) ∧
    (∀ (s : SnapshotSummary) (now t : Int),
      parse_siri_snapshot_id s.snapshot_id = some t → t = now - 600 →
      validate_freshness [s] now = Except.ok (true, Diagnostic.success t)) := by
  have hsingle : ∀ (s : SnapshotSummary) (t : Int),
      parse_siri_snapshot_id s.snapshot_id = some t →
      latestSnapshotDatetime [s] none = Except.ok (some t) := by
    intro s t hp
    simp [latestSnapshotDatetime, hp]
  refine ⟨?_, ?_, ?_⟩
  · intro l now m h
    obtain hmax := latestSnapshotDatetime_max l none (some m) h m rfl
    refine ⟨?_, hmax.2.2, ?_, ?_⟩
    · rcases hmax.1 with h' | h'
      · cases h'
      · exact h'
    · rw [validate_freshness_some l now m h]
      by_cases hm : m < now - 3600
      · simp [hm]
      · simp [hm]
    · rw [validate_freshness_some l now m h]
      by_cases hm : m < now - 3600
      · simp [hm]
        omega
      · simp [hm]
        omega
  · intro s now t hp ht
    rw [validate_freshness_some [s] now t (hsingle s t hp), if_pos (by omega)]
  · intro s now t hp ht
    rw [validate_freshness_some [s] now t (hsingle s t hp), if_neg (by omega)]

/-- C5 witness: a summary parsing to 2024-01-15 10:00 (instant 1705312800) is
rejected two hours later and accepted ten minutes later. -/
theorem C5_freshness_max_witness :
    validate_freshness [staleSummary] 1705320000 =
      Except.ok (false, Diagnostic.older_than_hour 1705312800) ∧
    validate_freshness [staleSummary] 1705313400 =
      Except.ok (true, Diagnostic.success 1705312800) :=
  ⟨C5_freshness_max.2.1 staleSummary 1705320000 1705312800 (by decide) (by decide),
   C5_freshness_max.2.2 staleSummary 1705313400 1705312800 (by decide) (by decide)⟩

/-- C7: the `by_snapshot_id` count for day `d` is exactly the number of
snapshots whose identifier starts with the characters `YYYY/MM/DD/` of `d` —
the `LIKE` pattern with trailing `%` is a pure string-prefix match — and a
snapshot whose `etl_start_time` lies in `d`'s window but whose identifier
prefix differs does not contribute to it. -/
theorem C7_by_snapshot_id_is_prefix_match :
    (∀ (st : Store) (d : Int),
      siri_by_snapshot_id st d =
        st.siri_snapshots.countP fun s =>
          (day_segment_chars d).isPrefixOf s.snapshot_id.toList) ∧
    (∀ (st : Store) (d : Int) (s : SiriSnapshot),
      timeInWindow d s.etl_start_time = true →
      (day_segment_chars d).isPrefixOf s.snapshot_id.toList = false →
      siri_by_snapshot_id (addSnapshot st s) d = siri_by_snapshot_id st d) := by
  have key : ∀ (d : Int) (s : SiriSnapshot),
      likeMatch (day_segment_chars d ++ ['%']) s.snapshot_id.toList =
        (day_segment_chars d).isPrefixOf s.snapshot_id.toList :=
    fun d s =>
      likeMatch_trailing_any (day_segment_chars d) (day_segment_chars_no_wildcard d)
        s.snapshot_id.toList
  constructor
  · intro st d
    unfold siri_by_snapshot_id
    exact List.countP_congr fun s _ => by rw [key]
  · intro st d s _hwin hpref
    unfold siri_by_snapshot_id addSnapshot
    simp only [List.countP_append]
    have hlm : likeMatch (day_segment_chars d ++ ['%']) s.snapshot_id.toList = false := by
      rw [key]
      exact hpref
    have hz : List.countP (fun s' =>
        likeMatch (day_segment_chars d ++ ['%']) s'.snapshot_id.toList) [s] = 0 := by
      rw [List.countP_eq_zero]
      intro a ha
      rcases List.mem_singleton.1 ha with rfl
      simp only [Bool.not_eq_true]
      exact hlm
    omega

/-- C7 witness on day 19737 (2024-01-15): the matching snapshot is counted,
and an in-window snapshot whose identifier encodes 2024-01-16 is not. -/
theorem C7_by_snapshot_id_is_prefix_match_witness :
    siri_by_snapshot_id janStore 19737 =
      janStore.siri_snapshots.countP (fun s =>
        (day_segment_chars 19737).isPrefixOf s.snapshot_id.toList) ∧
    siri_by_snapshot_id (addSnapshot janStore offDaySnapshot) 19737 =
      siri_by_snapshot_id janStore 19737 :=
  ⟨C7_by_snapshot_id_is_prefix_match.1 janStore 19737,
   C7_by_snapshot_id_is_prefix_match.2 janStore 19737 offDaySnapshot
     (by decide) (by decide)⟩

/-- C9: the freshness verdict of `collect` depends only on the
`latest_siri_snapshots_limit` summaries with the greatest `etl_start_time`:
two stores agreeing on those summaries get identical verdicts, and whenever
every top-n summary parses stale the verdict is false — so a fresh snapshot
whose `etl_start_time` is not among the top n cannot make validation
succeed. -/
theorem C9_verdict_depends_on_top_n :
    (∀ (st1 st2 : Store) (now : Int) (n days1 days2 : Nat) (f1 f2 : Int),
      siri_snapshots_iterator st1 n = siri_snapshots_iterator st2 n →
      (collect st1 now n days1 f1 true true).1 =
        (collect st2 now n days2 f2 true true).1) ∧
    (∀ (st : Store) (now : Int) (n days : Nat) (f : Int),
      (∀ s ∈ siri_snapshots_iterator st n, ∃ t,
        parse_siri_snapshot_id s.snapshot_id = some t ∧ t < now - 3600) →
      ∃ dg, (collect st now n days f true true).1 =
        CollectResult.verdict false dg) := by
  constructor
  · intro st1 st2 now n days1 days2 f1 f2 h
    rw [collect_verdict_eq, collect_verdict_eq, h]
  · intro st now n days f h
    obtain ⟨r, hrr, hstale⟩ := latestSnapshotDatetime_stale
      (siri_snapshots_iterator st n) now none h (by intro a ha; cases ha)
    have hval : ∃ dg, validate_freshness (siri_snapshots_iterator st n) now =
        Except.ok (false, dg) := by
      cases r with
      | none =>
        exact ⟨Diagnostic.no_snapshot, validate_freshness_none _ now hrr⟩
      | some m =>
        refine ⟨Diagnostic.older_than_hour m, ?_⟩
        rw [validate_freshness_some _ now m hrr, if_pos (hstale m rfl)]
    obtain ⟨dg, hdg⟩ := hval
    rw [collect_verdict_eq, hdg]
    exact ⟨dg, rfl⟩

/-- C9 witness: the two stores agree on the single top-by-`etl_start_time`
snapshot (whose identifier is stale at the chosen instant); the verdicts
coincide and are false, even though the second store also holds a snapshot
with a fresh identifier but a smaller `etl_start_time`. -/
theorem C9_verdict_depends_on_top_n_witness :
    (collect topOnlyStore 1705320000 1 0 0 true true).1 =
      (collect withFreshStore 1705320000 1 0 0 true true).1 ∧
    (∃ dg, (collect withFreshStore 1705320000 1 0 0 true true).1 =
      CollectResult.verdict false dg) := by
  constructor
  · exact C9_verdict_depends_on_top_n.1 topOnlyStore withFreshStore
      1705320000 1 0 0 0 0 (by decide)
  · apply C9_verdict_depends_on_top_n.2
    intro s hs
    have hiter : siri_snapshots_iterator withFreshStore 1 =
        [snapshotSummary withFreshStore staleTopSnapshot] := by decide
    rw [hiter] at hs
    rcases List.mem_singleton.1 hs with rfl
    exact ⟨1705312800, by decide, by decide⟩
